import Mathlib

/-!
Verification of the SQLite Explorer MCP server core
(`sqlite_explorer.py`): the statement validator and execution pipeline of
`read_query`, the schema inspector `describe_table`, and `health_check`.

Strings are modelled with Lean `String`; the Python character-level
operations (`lower`, `startswith`, `in`, the quote-aware scan) are embedded
as functions on `String.data` so that they mirror the source loops exactly.
The database engine is external to the repository and is modelled as an
explicit parameter (a function from SQL text and parameters to either an
error message or a list of rows); connection opening and statement
execution are recorded in an event trace so that ordering properties can
be stated.
-/

deriving instance DecidableEq for Except

namespace SQLiteExplorer

/-- A scalar value stored in or returned by the database
(Python: `None`, `int`, `str`). -/
inductive SQLValue
  | null
  | int (i : Int)
  | str (s : String)
deriving DecidableEq

/-- A result row as produced by `sqlite3.Row` and `dict(row)`: an ordered
association of column name to value. -/
abbrev Row := List (String × SQLValue)

/-- The single-quote character `'` (written via its code point to keep the
source free of quote literals). -/
def squote : Char := Char.ofNat 39

/-- The loop body of `contains_multiple_statements`
(sqlite_explorer.py lines 84-94): scan characters left to right carrying
the `in_single_quote` / `in_double_quote` flags; a `;` seen with both
flags clear means a second statement. -/
def multiStmtScan (inSingle inDouble : Bool) : List Char → Bool
  | [] => false
  | c :: cs =>
    if c = squote ∧ inDouble = false then multiStmtScan (!inSingle) inDouble cs
    else if c = '"' ∧ inSingle = false then multiStmtScan inSingle (!inDouble) cs
    else if c = ';' ∧ inSingle = false ∧ inDouble = false then true
    else multiStmtScan inSingle inDouble cs

/-- `contains_multiple_statements` (sqlite_explorer.py lines 84-94). -/
def contains_multiple_statements (sql : String) : Bool :=
  multiStmtScan false false sql.data

/-- Python `str.strip()` on a character list: drop whitespace from both
ends. -/
def trimList (l : List Char) : List Char :=
  ((l.dropWhile Char.isWhitespace).reverse.dropWhile Char.isWhitespace).reverse

/-- Python `str.strip()`. -/
def trimStr (s : String) : String := String.mk (trimList s.data)

/-- Python `str.endswith(';')`. -/
def endsWithSemicolon (s : String) : Bool := s.data.getLast? = some ';'

/-- The normalization prefix of `read_query` (lines 77-81): trim
whitespace; if the text ends in `;`, drop that one character
(Python `query[:-1]`) and re-trim. -/
def normalizeQuery (query : String) : String :=
  let q := trimStr query
  if endsWithSemicolon q then trimStr (String.mk q.data.dropLast) else q

/-- Python `str.lower()`, character by character. -/
def lowerStr (s : String) : String := String.mk (s.data.map Char.toLower)

/-- Python `str.startswith(p)`. -/
def startsWithStr (s p : String) : Bool := p.data.isPrefixOf s.data

/-- Python substring membership `sub in s` on character lists. -/
def hasSubstrList (sub : List Char) : List Char → Bool
  | [] => sub.isEmpty
  | c :: cs => sub.isPrefixOf (c :: cs) || hasSubstrList sub cs

/-- Python substring membership `sub in s`. -/
def hasSubstr (s sub : String) : Bool := hasSubstrList sub.data s.data

/-- The error kinds raised by the tools (each a `ValueError` or
`FileNotFoundError` in the source). -/
inductive QueryError
  | databaseMissing
  | multipleStatements
  | unsupportedStatementType
  | tableNotFound
  | executionError (msg : String)
deriving DecidableEq

/-- The validation section of `read_query` (lines 77-102): normalize, then
reject multiple statements, then require a `select`/`with` prefix of the
lower-cased text; on success return the normalized text. -/
def validateQuery (query : String) : Except QueryError String :=
  if contains_multiple_statements (normalizeQuery query) then .error .multipleStatements
  else if !(startsWithStr (lowerStr (normalizeQuery query)) "select"
      || startsWithStr (lowerStr (normalizeQuery query)) "with") then
    .error .unsupportedStatementType
  else .ok (normalizeQuery query)

/-- The LIMIT injection of `read_query` (lines 110-112): if the lower-cased
text lacks the substring `limit`, append one LIMIT clause with the
caller's row limit rendered by `str()`. -/
def applyRowLimit (q : String) (row_limit : Int) : String :=
  if hasSubstr (lowerStr q) "limit" then q
  else q ++ " LIMIT " ++ toString row_limit

/-- Connection-level events of one `read_query` call, in order. -/
inductive Event
  | openConnection
  | executeQuery (sql : String)
deriving DecidableEq

/-- `read_query` (lines 55-124). `dbExists` models `DB_PATH.exists()`;
`engine` models the sqlite3 driver executing one statement with bound
parameters (rows in engine output order, or an engine error message).
Returns the result together with the trace of connection events. -/
def read_query (dbExists : Bool)
    (engine : String → List SQLValue → Except String (List Row))
    (query : String) (params : Option (List SQLValue))
    (fetch_all : Bool) (row_limit : Int) :
    Except QueryError (List Row) × List Event :=
  if !dbExists then (.error .databaseMissing, [])
  else
    match validateQuery query with
    | .error e => (.error e, [])
    | .ok q =>
      match engine (applyRowLimit q row_limit) (params.getD []) with
      | .error msg =>
        (.error (.executionError msg),
         [Event.openConnection, Event.executeQuery (applyRowLimit q row_limit)])
      | .ok rows =>
        (.ok ((if fetch_all then rows.map some else [rows.head?]).filterMap id),
         [Event.openConnection, Event.executeQuery (applyRowLimit q row_limit)])

/-- Python `str(value)` with `None` rendered as the empty string
(describe_table lines 191-195). -/
def pyStr : SQLValue → String
  | .null => ""
  | .int i => toString i
  | .str s => s

/-- One row of `describe_table` output (lines 188-196): `dict(row)` with
every value stringified and `None` replaced by `""`. -/
def descriptorOfRow (row : Row) : List (String × String) :=
  row.map (fun kv => (kv.fst, pyStr kv.snd))

/-- Connection-level events of one `describe_table` call, in order. A
`catalogLookup` is the parameterized existence query against
`sqlite_master`; a `pragmaTableInfo` is the `PRAGMA table_info(...)`
command with the table name interpolated into its text. -/
inductive DTEvent
  | openConnection
  | catalogLookup (name : String)
  | pragmaTableInfo (name : String)
deriving DecidableEq

/-- `describe_table` (lines 151-201). `catalog` models the set of table
names in `sqlite_master` (entries of type `table`); `tableInfo` models the
engine's `PRAGMA table_info` output for a table. The existence lookup
(lines 174-180) runs first; only when the name is found is the PRAGMA
command issued with the name interpolated (line 183). -/
def describe_table (dbExists : Bool) (catalog : List String)
    (tableInfo : String → List Row) (table_name : String) :
    Except QueryError (List (List (String × String))) × List DTEvent :=
  if !dbExists then (.error .databaseMissing, [])
  else if catalog.contains table_name then
    let cols := tableInfo table_name
    (.ok (cols.map descriptorOfRow),
     [.openConnection, .catalogLookup table_name, .pragmaTableInfo table_name])
  else
    (.error .tableNotFound, [.openConnection, .catalogLookup table_name])

/-- Modelled from SQLite's documented `PRAGMA table_info` result shape
(the engine is external to the repository): each output row has the six
columns `cid`, `name`, `type`, `notnull`, `dflt_value`, `pk`, of which
only `dflt_value` may be NULL. -/
structure TableInfoRow where
  cid : Int
  name : String
  type : String
  notnull : Int
  dflt_value : Option String
  pk : Int
deriving DecidableEq

/-- A `PRAGMA table_info` row as the sqlite3 driver hands it to
`describe_table`: the ordered column-name/value mapping. -/
def tableInfoRowToRow (r : TableInfoRow) : Row :=
  [("cid", .int r.cid), ("name", .str r.name), ("type", .str r.type),
   ("notnull", .int r.notnull),
   ("dflt_value", match r.dflt_value with | none => .null | some s => .str s),
   ("pk", .int r.pk)]

/-- The record returned by `health_check` (lines 204-229): the three
string fields are always present. -/
structure HealthRecord where
  status : String
  database : String
  message : String
deriving DecidableEq

/-- `health_check` (lines 204-229). The whole connection-or-query path is
inside `try`; its outcome is modelled as either a raised exception message
or the `fetchone()` result of `SELECT 1 as test` (a positional row, or
`none` when no row came back). Every branch returns a record; nothing is
re-raised. -/
def health_check (dbPath : String)
    (connOutcome : Except String (Option (List SQLValue))) : HealthRecord :=
  match connOutcome with
  | .error e =>
    { status := "error", database := dbPath,
      message := "Health check failed: " ++ e }
  | .ok result =>
    match result with
    | some (v :: _) =>
      if v = SQLValue.int 1 then
        { status := "healthy", database := dbPath,
          message := "SQLite Explorer server is running properly" }
      else
        { status := "error", database := dbPath,
          message := "Database test query failed" }
    | some [] =>
      { status := "error", database := dbPath,
        message := "Database test query failed" }
    | none =>
      { status := "error", database := dbPath,
        message := "Database test query failed" }

/-- `list_tables` (lines 126-149): the catalog query with
`ORDER BY name`; the engine returns the names sorted ascending. Modelled
by sorting the catalog. -/
def list_tables (dbExists : Bool) (catalog : List String) :
    Except QueryError (List String) :=
  if !dbExists then .error .databaseMissing
  else .ok (catalog.mergeSort (fun a b => a ≤ b))

/-- A characterization of one scan step skipping a character: a character
that cannot toggle a quote flag in the current state and cannot fire the
top-level separator test leaves the scan state unchanged. -/
theorem multiStmtScan_append_skip (l rest : List Char) (s d : Bool)
    (h : ∀ c ∈ l, (c = squote → d = true) ∧ (c = '"' → s = true) ∧
         (c = ';' → s = true ∨ d = true)) :
    multiStmtScan s d (l ++ rest) = multiStmtScan s d rest := by
  induction l with
  | nil => rfl
  | cons c cs ih =>
    obtain ⟨h1, h2, h3⟩ := h c (List.mem_cons_self c cs)
    have n1 : ¬(c = squote ∧ d = false) := by
      rintro ⟨hc, hd⟩
      exact absurd (h1 hc) (by simp [hd])
    have n2 : ¬(c = '"' ∧ s = false) := by
      rintro ⟨hc, hs⟩
      exact absurd (h2 hc) (by simp [hs])
    have n3 : ¬(c = ';' ∧ s = false ∧ d = false) := by
      rintro ⟨hc, hs, hd⟩
      rcases h3 hc with hh | hh
      · exact absurd hh (by simp [hs])
      · exact absurd hh (by simp [hd])
    calc multiStmtScan s d ((c :: cs) ++ rest)
        = multiStmtScan s d (cs ++ rest) := by
          simp only [List.cons_append, multiStmtScan, if_neg n1, if_neg n2, if_neg n3,
            List.append_eq]
      _ = multiStmtScan s d rest := ih (fun x hx => h x (List.mem_cons_of_mem c hx))

/-- A separator inside a single-quoted literal is never counted: the scan
returns `false` on `a'b'c` whenever the quote pair is balanced and only
`b` (the literal body) may hold separators. -/
theorem multiStmtScan_quoted_single (a b c : List Char)
    (ha : ∀ x ∈ a, x ≠ squote ∧ x ≠ '"' ∧ x ≠ ';')
    (hb : ∀ x ∈ b, x ≠ squote)
    (hc : ∀ x ∈ c, x ≠ squote ∧ x ≠ '"' ∧ x ≠ ';') :
    multiStmtScan false false (a ++ squote :: (b ++ squote :: c)) = false := by
  rw [multiStmtScan_append_skip a _ false false (by
    intro x hx
    obtain ⟨h1, h2, h3⟩ := ha x hx
    exact ⟨fun hh => (h1 hh).elim, fun hh => (h2 hh).elim, fun hh => (h3 hh).elim⟩)]
  rw [show multiStmtScan false false (squote :: (b ++ squote :: c))
        = multiStmtScan true false (b ++ squote :: c) by
    simp [multiStmtScan]]
  rw [multiStmtScan_append_skip b _ true false (by
    intro x hx
    exact ⟨fun hh => ((hb x hx) hh).elim, fun _ => rfl, fun _ => Or.inl rfl⟩)]
  rw [show multiStmtScan true false (squote :: c) = multiStmtScan false false c by
    simp [multiStmtScan]]
  have := multiStmtScan_append_skip c [] false false (by
    intro x hx
    obtain ⟨h1, h2, h3⟩ := hc x hx
    exact ⟨fun hh => (h1 hh).elim, fun hh => (h2 hh).elim, fun hh => (h3 hh).elim⟩)
  rw [List.append_nil] at this
  rw [this]
  rfl

/-- A separator inside a double-quoted literal is never counted. -/
theorem multiStmtScan_quoted_double (a b c : List Char)
    (ha : ∀ x ∈ a, x ≠ squote ∧ x ≠ '"' ∧ x ≠ ';')
    (hb : ∀ x ∈ b, x ≠ '"')
    (hc : ∀ x ∈ c, x ≠ squote ∧ x ≠ '"' ∧ x ≠ ';') :
    multiStmtScan false false (a ++ '"' :: (b ++ '"' :: c)) = false := by
  rw [multiStmtScan_append_skip a _ false false (by
    intro x hx
    obtain ⟨h1, h2, h3⟩ := ha x hx
    exact ⟨fun hh => (h1 hh).elim, fun hh => (h2 hh).elim, fun hh => (h3 hh).elim⟩)]
  rw [show multiStmtScan false false ('"' :: (b ++ '"' :: c))
        = multiStmtScan false true (b ++ '"' :: c) by
    simp [multiStmtScan, squote]]
  rw [multiStmtScan_append_skip b _ false true (by
    intro x hx
    exact ⟨fun _ => rfl, fun hh => ((hb x hx) hh).elim, fun _ => Or.inr rfl⟩)]
  rw [show multiStmtScan false true ('"' :: c) = multiStmtScan false false c by
    simp [multiStmtScan, squote]]
  have := multiStmtScan_append_skip c [] false false (by
    intro x hx
    obtain ⟨h1, h2, h3⟩ := hc x hx
    exact ⟨fun hh => (h1 hh).elim, fun hh => (h2 hh).elim, fun hh => (h3 hh).elim⟩)
  rw [List.append_nil] at this
  rw [this]
  rfl

/-- A separator at top level (outside every quote) fires the scan. -/
theorem multiStmtScan_top_semicolon (a rest : List Char)
    (ha : ∀ x ∈ a, x ≠ squote ∧ x ≠ '"' ∧ x ≠ ';') :
    multiStmtScan false false (a ++ ';' :: rest) = true := by
  rw [multiStmtScan_append_skip a _ false false (by
    intro x hx
    obtain ⟨h1, h2, h3⟩ := ha x hx
    exact ⟨fun hh => (h1 hh).elim, fun hh => (h2 hh).elim, fun hh => (h3 hh).elim⟩)]
  simp [multiStmtScan, squote]

/-- The validator rejects with MultipleStatements exactly when the scan
fires on the normalized text. -/
theorem validateQuery_multipleStatements_iff (q : String) :
    validateQuery q = .error .multipleStatements ↔
      contains_multiple_statements (normalizeQuery q) = true := by
  constructor
  · intro hv
    cases h : contains_multiple_statements (normalizeQuery q) with
    | true => rfl
    | false =>
      unfold validateQuery at hv
      rw [h] at hv
      rw [if_neg (by decide : ¬(false = true))] at hv
      split at hv
      · exact QueryError.noConfusion (Except.error.inj hv)
      · exact Except.noConfusion hv
  · intro h
    unfold validateQuery
    rw [h]
    simp

/-- C1: read_query's validator rejects with MultipleStatements exactly when
the quote-aware character scan finds a top-level separator in the
normalized text; a separator inside a single- or double-quoted literal
never triggers the rejection, a top-level separator always does, and in
particular `SELECT * FROM t WHERE name = 'a;b'` is not rejected as
multiple statements while `SELECT 1; SELECT 2` is. -/
theorem C1_quote_aware_multiple_statement_rejection :
    (∀ q : String, validateQuery q = .error .multipleStatements ↔
        contains_multiple_statements (normalizeQuery q) = true) ∧
    (∀ a b c : List Char,
        (∀ x ∈ a, x ≠ squote ∧ x ≠ '"' ∧ x ≠ ';') →
        (∀ x ∈ b, x ≠ squote) →
        (∀ x ∈ c, x ≠ squote ∧ x ≠ '"' ∧ x ≠ ';') →
        contains_multiple_statements
          (String.mk (a ++ squote :: (b ++ squote :: c))) = false) ∧
    (∀ a b c : List Char,
        (∀ x ∈ a, x ≠ squote ∧ x ≠ '"' ∧ x ≠ ';') →
        (∀ x ∈ b, x ≠ '"') →
        (∀ x ∈ c, x ≠ squote ∧ x ≠ '"' ∧ x ≠ ';') →
        contains_multiple_statements
          (String.mk (a ++ '"' :: (b ++ '"' :: c))) = false) ∧
    (∀ a rest : List Char,
        (∀ x ∈ a, x ≠ squote ∧ x ≠ '"' ∧ x ≠ ';') →
        contains_multiple_statements (String.mk (a ++ ';' :: rest)) = true) ∧
    validateQuery "SELECT * FROM t WHERE name = \x27a;b\x27"
      ≠ .error .multipleStatements ∧
    validateQuery "SELECT 1; SELECT 2" = .error .multipleStatements := by
  refine ⟨validateQuery_multipleStatements_iff,
    fun a b c ha hb hc => multiStmtScan_quoted_single a b c ha hb hc,
    fun a b c ha hb hc => multiStmtScan_quoted_double a b c ha hb hc,
    fun a rest ha => multiStmtScan_top_semicolon a rest ha,
    by decide, by decide⟩

/-- Witness for C1 at concrete inputs: the quoted-literal family applied to
`SELECT * FROM t WHERE name = 'a;b'` and the top-level family applied to
`SELECT 1; SELECT 2`. -/
theorem C1_quote_aware_multiple_statement_rejection_witness :
    (∀ x ∈ ("SELECT * FROM t WHERE name = ".data),
        x ≠ squote ∧ x ≠ '"' ∧ x ≠ ';') ∧
    contains_multiple_statements
      (String.mk ("SELECT * FROM t WHERE name = ".data
        ++ squote :: ("a;b".data ++ squote :: []))) = false ∧
    contains_multiple_statements
      (String.mk ("SELECT 1".data ++ ';' :: " SELECT 2".data)) = true :=
  ⟨by decide,
   C1_quote_aware_multiple_statement_rejection.2.1 _ _ _
     (by decide) (by decide) (by decide),
   C1_quote_aware_multiple_statement_rejection.2.2.2.1 _ _ (by decide)⟩

/-- C2 counterexample: `DELETE FROM t; DELETE FROM u` does not start with
select/with after normalization, yet the validator rejects it with
MultipleStatements (the scan runs first), not UnsupportedStatementType. -/
theorem C2_counterexample_multi_statement_delete :
    startsWithStr (lowerStr (normalizeQuery "DELETE FROM t; DELETE FROM u"))
      "select" = false ∧
    startsWithStr (lowerStr (normalizeQuery "DELETE FROM t; DELETE FROM u"))
      "with" = false ∧
    validateQuery "DELETE FROM t; DELETE FROM u" = .error .multipleStatements ∧
    validateQuery "DELETE FROM t; DELETE FROM u"
      ≠ .error .unsupportedStatementType :=
  ⟨by decide, by decide, by decide, by decide⟩

/-- C2 (amended): among texts that pass the multiple-statement scan, those
whose normalized lower-cased form starts with neither `select` nor `with`
are rejected with UnsupportedStatementType, and those starting with one of
the two prefixes pass the type check (prefix check only). -/
theorem C2_prefix_check_unsupported (q : String)
    (hms : contains_multiple_statements (normalizeQuery q) = false) :
    (startsWithStr (lowerStr (normalizeQuery q)) "select" = false ∧
       startsWithStr (lowerStr (normalizeQuery q)) "with" = false →
       validateQuery q = .error .unsupportedStatementType) ∧
    (startsWithStr (lowerStr (normalizeQuery q)) "select" = true ∨
       startsWithStr (lowerStr (normalizeQuery q)) "with" = true →
       validateQuery q = .ok (normalizeQuery q)) := by
  constructor
  · rintro ⟨h1, h2⟩
    unfold validateQuery
    rw [hms, if_neg (by decide : ¬(false = true)), if_pos (by simp [h1, h2])]
  · intro h
    unfold validateQuery
    rw [hms, if_neg (by decide : ¬(false = true)),
      if_neg (by rcases h with h | h <;> simp [h])]

/-- Witness for C2's amended theorem: `DELETE FROM t` is rejected as
unsupported; `SELECT * FROM t` passes the prefix check. -/
theorem C2_prefix_check_unsupported_witness :
    contains_multiple_statements (normalizeQuery "DELETE FROM t") = false ∧
    validateQuery "DELETE FROM t" = .error .unsupportedStatementType ∧
    validateQuery "SELECT * FROM t" = .ok "SELECT * FROM t" :=
  ⟨by decide,
   (C2_prefix_check_unsupported "DELETE FROM t" (by decide)).1
     ⟨by decide, by decide⟩,
   (C2_prefix_check_unsupported "SELECT * FROM t" (by decide)).2
     (Or.inl (by decide))⟩

/-- C8: the validator trims whitespace and strips exactly one trailing
separator before re-trimming; `SELECT 1;` and `SELECT 1` validate
identically and `SELECT 1;;` is normalized to `SELECT 1;`, not
`SELECT 1`. -/
theorem C8_trailing_separator_normalization (q : String) :
    (endsWithSemicolon (trimStr q) = true →
       normalizeQuery q = trimStr (String.mk (trimStr q).data.dropLast)) ∧
    (endsWithSemicolon (trimStr q) = false → normalizeQuery q = trimStr q) ∧
    normalizeQuery "SELECT 1;" = "SELECT 1" ∧
    normalizeQuery "SELECT 1" = "SELECT 1" ∧
    validateQuery "SELECT 1;" = validateQuery "SELECT 1" ∧
    normalizeQuery "SELECT 1;;" = "SELECT 1;" ∧
    normalizeQuery "SELECT 1;;" ≠ "SELECT 1" := by
  refine ⟨fun h => ?_, fun h => ?_, by decide, by decide, by decide,
    by decide, by decide⟩
  · unfold normalizeQuery
    rw [if_pos h]
  · unfold normalizeQuery
    rw [if_neg (by simp [h])]

/-- Witness for C8: one-semicolon stripping on `SELECT 1;` and the
no-semicolon case on `SELECT 2`. -/
theorem C8_trailing_separator_normalization_witness :
    endsWithSemicolon (trimStr "SELECT 1;") = true ∧
    normalizeQuery "SELECT 1;"
      = trimStr (String.mk (trimStr "SELECT 1;").data.dropLast) ∧
    endsWithSemicolon (trimStr "SELECT 2") = false ∧
    normalizeQuery "SELECT 2" = trimStr "SELECT 2" :=
  ⟨by decide, (C8_trailing_separator_normalization "SELECT 1;").1 (by decide),
   by decide, (C8_trailing_separator_normalization "SELECT 2").2.1 (by decide)⟩

/-- A list is a prefix of itself followed by anything. -/
theorem isPrefixOf_append_self (l b : List Char) : l.isPrefixOf (l ++ b) = true := by
  induction l with
  | nil => cases b <;> rfl
  | cons c cs ih => simp [List.isPrefixOf, ih]

/-- Substring search succeeds in any right extension. -/
theorem hasSubstrList_append_left (sub a b : List Char)
    (h : hasSubstrList sub b = true) : hasSubstrList sub (a ++ b) = true := by
  induction a with
  | nil => exact h
  | cons c cs ih => simp [hasSubstrList, ih]

/-- Substring search succeeds after skipping one character. -/
theorem hasSubstrList_cons (sub : List Char) (c : Char) (l : List Char)
    (h : hasSubstrList sub l = true) : hasSubstrList sub (c :: l) = true := by
  simp [hasSubstrList, h]

/-- Substring search finds the pattern at the front. -/
theorem hasSubstrList_here (sub b : List Char) :
    hasSubstrList sub (sub ++ b) = true := by
  cases sub with
  | nil => cases b <;> simp [hasSubstrList, List.isPrefixOf]
  | cons c cs => simp [hasSubstrList, isPrefixOf_append_self]

/-- String concatenation concatenates the character lists. -/
theorem strData_append (s t : String) : (s ++ t).data = s.data ++ t.data := by
  cases s
  cases t
  rfl

/-- After the LIMIT clause is appended, the lower-cased text contains the
substring `limit`. -/
theorem hasSubstr_lower_append_limit (q : String) (n : Int) :
    hasSubstr (lowerStr (q ++ " LIMIT " ++ toString n)) "limit" = true := by
  unfold hasSubstr lowerStr
  rw [strData_append, strData_append, List.map_append, List.map_append]
  rw [show ((" LIMIT ".data).map Char.toLower)
        = ' ' :: ("limit".data ++ [' ']) by decide]
  rw [List.append_assoc]
  apply hasSubstrList_append_left
  rw [List.cons_append]
  apply hasSubstrList_cons
  rw [List.append_assoc]
  exact hasSubstrList_here _ _

/-- If the lower-cased text lacks `limit`, the clause is appended. -/
theorem applyRowLimit_absent (q : String) (n : Int)
    (h : hasSubstr (lowerStr q) "limit" = false) :
    applyRowLimit q n = q ++ " LIMIT " ++ toString n := by
  unfold applyRowLimit
  rw [h, if_neg (by decide : ¬(false = true))]

/-- If the lower-cased text already holds `limit`, it is untouched. -/
theorem applyRowLimit_present (q : String) (n : Int)
    (h : hasSubstr (lowerStr q) "limit" = true) :
    applyRowLimit q n = q := by
  unfold applyRowLimit
  rw [h, if_pos rfl]

/-- Injecting the row limit is idempotent. -/
theorem applyRowLimit_idem (q : String) (n m : Int) :
    applyRowLimit (applyRowLimit q n) m = applyRowLimit q n := by
  cases h : hasSubstr (lowerStr q) "limit" with
  | true => rw [applyRowLimit_present q n h, applyRowLimit_present q m h]
  | false =>
    rw [applyRowLimit_absent q n h,
      applyRowLimit_present _ m (hasSubstr_lower_append_limit q n)]

/-- On an accepted statement, `read_query` opens a connection and executes
the limit-adjusted text. -/
theorem read_query_accepted_trace (engine : String → List SQLValue → Except String (List Row))
    (q nq : String) (params : Option (List SQLValue)) (fa : Bool) (rl : Int)
    (hv : validateQuery q = .ok nq) :
    (read_query true engine q params fa rl).snd =
      [Event.openConnection, Event.executeQuery (applyRowLimit nq rl)] := by
  unfold read_query
  rw [hv]
  cases he : engine (applyRowLimit nq rl) (params.getD []) with
  | error msg => simp [he]
  | ok rows => simp [he]

/-- On an accepted statement whose execution succeeds, the result is the
fetched rows after the fetch-mode selection. -/
theorem read_query_accepted_ok (engine : String → List SQLValue → Except String (List Row))
    (q nq : String) (params : Option (List SQLValue)) (fa : Bool) (rl : Int)
    (rows : List Row)
    (hv : validateQuery q = .ok nq)
    (he : engine (applyRowLimit nq rl) (params.getD []) = .ok rows) :
    (read_query true engine q params fa rl).fst =
      .ok ((if fa then rows.map some else [rows.head?]).filterMap id) := by
  unfold read_query
  rw [hv]
  simp [he]

/-- C3: limit injection is idempotent and never overrides a caller limit:
an accepted text without the substring `limit` executes as the normalized
text with exactly one LIMIT clause appended, a text already containing
`limit` executes completely untouched, and the concrete examples of the
spec hold with row_limit 1000. -/
theorem C3_limit_injection (engine : String → List SQLValue → Except String (List Row))
    (q nq : String) (params : Option (List SQLValue)) (fa : Bool) (rl rl2 : Int)
    (hv : validateQuery q = .ok nq) :
    (hasSubstr (lowerStr nq) "limit" = false →
       (read_query true engine q params fa rl).snd =
         [Event.openConnection,
          Event.executeQuery (nq ++ " LIMIT " ++ toString rl)]) ∧
    (hasSubstr (lowerStr nq) "limit" = true →
       (read_query true engine q params fa rl).snd =
         [Event.openConnection, Event.executeQuery nq]) ∧
    applyRowLimit (applyRowLimit nq rl) rl2 = applyRowLimit nq rl ∧
    applyRowLimit "SELECT * FROM t LIMIT 5" 1000 = "SELECT * FROM t LIMIT 5" ∧
    applyRowLimit "SELECT * FROM t" 1000 = "SELECT * FROM t LIMIT 1000" := by
  refine ⟨fun h => ?_, fun h => ?_, applyRowLimit_idem nq rl rl2,
    by decide, by decide⟩
  · rw [read_query_accepted_trace engine q nq params fa rl hv,
      applyRowLimit_absent nq rl h]
  · rw [read_query_accepted_trace engine q nq params fa rl hv,
      applyRowLimit_present nq rl h]

/-- A trivially succeeding engine returning no rows. -/
def eng0 : String → List SQLValue → Except String (List Row) := fun _ _ => .ok []

/-- Witness for C3: the two concrete statements of the spec run through
`read_query` with row_limit 1000. -/
theorem C3_limit_injection_witness :
    validateQuery "SELECT * FROM t" = .ok "SELECT * FROM t" ∧
    hasSubstr (lowerStr "SELECT * FROM t") "limit" = false ∧
    (read_query true eng0 "SELECT * FROM t" none true 1000).snd =
      [Event.openConnection,
       Event.executeQuery ("SELECT * FROM t" ++ " LIMIT " ++ toString (1000 : Int))] ∧
    ("SELECT * FROM t" ++ " LIMIT " ++ toString (1000 : Int))
      = "SELECT * FROM t LIMIT 1000" ∧
    hasSubstr (lowerStr "SELECT * FROM t LIMIT 5") "limit" = true ∧
    (read_query true eng0 "SELECT * FROM t LIMIT 5" none true 1000).snd =
      [Event.openConnection, Event.executeQuery "SELECT * FROM t LIMIT 5"] :=
  ⟨by decide, by decide,
   (C3_limit_injection eng0 "SELECT * FROM t" "SELECT * FROM t" none true
     1000 1000 (by decide)).1 (by decide),
   by decide, by decide,
   (C3_limit_injection eng0 "SELECT * FROM t LIMIT 5" "SELECT * FROM t LIMIT 5"
     none true 1000 1000 (by decide)).2.1 (by decide)⟩

/-- C9: in single-row fetch mode the result holds at most one row; a
missing row yields the empty result set, never an error and never a null
entry. -/
theorem C9_single_row_fetch (engine : String → List SQLValue → Except String (List Row))
    (q nq : String) (params : Option (List SQLValue)) (rl : Int) (rows : List Row)
    (hv : validateQuery q = .ok nq)
    (he : engine (applyRowLimit nq rl) (params.getD []) = .ok rows) :
    (read_query true engine q params false rl).fst = .ok (rows.take 1) ∧
    (rows.take 1).length ≤ 1 ∧
    (rows = [] → (read_query true engine q params false rl).fst = .ok []) := by
  have hmain := read_query_accepted_ok engine q nq params false rl rows hv he
  have hres : (((if (false : Bool) then rows.map some else [rows.head?]).filterMap id))
      = rows.take 1 := by cases rows <;> rfl
  refine ⟨?_, ?_, ?_⟩
  · rw [hmain, hres]
  · cases rows <;> simp
  · intro h
    subst h
    rw [hmain]
    rfl

/-- An engine returning two rows regardless of the statement. -/
def eng2 : String → List SQLValue → Except String (List Row) :=
  fun _ _ => .ok [[("a", SQLValue.int 1)], [("a", SQLValue.int 2)]]

/-- Witness for C9: a missing single row yields the empty result set, and
a two-row result is cut to its first row. -/
theorem C9_single_row_fetch_witness :
    validateQuery "SELECT 1" = .ok "SELECT 1" ∧
    (read_query true eng0 "SELECT 1" none false 1000).fst = .ok [] ∧
    (read_query true eng2 "SELECT 1" none false 1000).fst =
      .ok [[("a", SQLValue.int 1)]] :=
  ⟨by decide,
   (C9_single_row_fetch eng0 "SELECT 1" "SELECT 1" none 1000 []
     (by decide) rfl).2.2 rfl,
   (C9_single_row_fetch eng2 "SELECT 1" "SELECT 1" none 1000
     [[("a", SQLValue.int 1)], [("a", SQLValue.int 2)]] (by decide) rfl).1⟩

/-- C10: `read_query` performs no positivity check on row_limit: any
integer, zero and negatives included, is accepted and interpolated
verbatim into the appended LIMIT clause, and execution proceeds without
any limit-specific error. -/
theorem C10_row_limit_unchecked (engine : String → List SQLValue → Except String (List Row))
    (q nq : String) (params : Option (List SQLValue)) (fa : Bool) (rl : Int)
    (hv : validateQuery q = .ok nq)
    (hnl : hasSubstr (lowerStr nq) "limit" = false) :
    (read_query true engine q params fa rl).snd =
      [Event.openConnection,
       Event.executeQuery (nq ++ " LIMIT " ++ toString rl)] ∧
    (read_query true eng0 q params fa rl).fst = .ok [] ∧
    applyRowLimit nq (-1) = nq ++ " LIMIT " ++ "-1" ∧
    applyRowLimit nq 0 = nq ++ " LIMIT " ++ "0" := by
  refine ⟨?_, ?_, ?_, ?_⟩
  · rw [read_query_accepted_trace engine q nq params fa rl hv,
      applyRowLimit_absent nq rl hnl]
  · have := read_query_accepted_ok eng0 q nq params fa rl [] hv rfl
    rw [this]
    cases fa <;> rfl
  · rw [applyRowLimit_absent nq (-1) hnl]
    rfl
  · rw [applyRowLimit_absent nq 0 hnl]
    rfl

/-- Witness for C10: row_limit −1 yields `... LIMIT -1` on a concrete
statement, with no error raised. -/
theorem C10_row_limit_unchecked_witness :
    validateQuery "SELECT * FROM t" = .ok "SELECT * FROM t" ∧
    hasSubstr (lowerStr "SELECT * FROM t") "limit" = false ∧
    (read_query true eng0 "SELECT * FROM t" none true (-1)).snd =
      [Event.openConnection,
       Event.executeQuery ("SELECT * FROM t" ++ " LIMIT " ++ toString (-1 : Int))] ∧
    ("SELECT * FROM t" ++ " LIMIT " ++ toString (-1 : Int))
      = "SELECT * FROM t LIMIT -1" ∧
    (read_query true eng0 "SELECT * FROM t" none true (-1)).fst = .ok [] :=
  ⟨by decide, by decide,
   (C10_row_limit_unchecked eng0 "SELECT * FROM t" "SELECT * FROM t" none true
     (-1) (by decide) (by decide)).1,
   by decide,
   (C10_row_limit_unchecked eng0 "SELECT * FROM t" "SELECT * FROM t" none true
     (-1) (by decide) (by decide)).2.1⟩

/-- C7: the DatabaseMissing check runs before everything else, and every
validator rejection (MultipleStatements, UnsupportedStatementType, as well
as DatabaseMissing) happens before any connection is opened: a rejected
call has no openConnection event in its trace. -/
theorem C7_validation_before_connection (dbExists : Bool)
    (engine : String → List SQLValue → Except String (List Row))
    (q : String) (params : Option (List SQLValue)) (fa : Bool) (rl : Int) :
    (dbExists = false →
       read_query dbExists engine q params fa rl = (.error .databaseMissing, [])) ∧
    (∀ e, (read_query dbExists engine q params fa rl).fst = .error e →
       e = .databaseMissing ∨ e = .multipleStatements ∨ e = .unsupportedStatementType →
       Event.openConnection ∉ (read_query dbExists engine q params fa rl).snd) := by
  constructor
  · intro h
    subst h
    rfl
  · intro e hfst hkind
    cases dbExists with
    | false => simp [read_query]
    | true =>
      cases hv : validateQuery q with
      | error e' => simp [read_query, hv]
      | ok nq =>
        cases he : engine (applyRowLimit nq rl) (params.getD []) with
        | error msg =>
          simp [read_query, hv, he] at hfst
          subst hfst
          rcases hkind with h | h | h <;> exact QueryError.noConfusion h
        | ok rows => simp [read_query, hv, he] at hfst

/-- Witness for C7: with the database file missing, even an invalid query
reports DatabaseMissing, and a validator rejection opens no connection. -/
theorem C7_validation_before_connection_witness :
    read_query false eng0 "SELECT 1" none true 1000
      = (.error .databaseMissing, []) ∧
    Event.openConnection ∉
      (read_query true eng0 "SELECT 1; SELECT 2" none true 1000).snd :=
  ⟨(C7_validation_before_connection false eng0 "SELECT 1" none true 1000).1 rfl,
   (C7_validation_before_connection true eng0 "SELECT 1; SELECT 2" none true
     1000).2 .multipleStatements (by decide) (Or.inr (Or.inl rfl))⟩

/-- C4: for a table name absent from the catalog, `describe_table` fails
with TableNotFound and never issues the PRAGMA command interpolating that
name; whenever a PRAGMA command is issued, the catalog lookup precedes it
in the trace. -/
theorem C4_describe_table_existence_guard (catalog : List String)
    (tableInfo : String → List Row) (name : String) :
    (catalog.contains name = false →
       (describe_table true catalog tableInfo name).fst = .error .tableNotFound ∧
       ∀ n, DTEvent.pragmaTableInfo n ∉
         (describe_table true catalog tableInfo name).snd) ∧
    (∀ dbE : Bool,
       DTEvent.pragmaTableInfo name ∈ (describe_table dbE catalog tableInfo name).snd →
       (describe_table dbE catalog tableInfo name).snd =
         [DTEvent.openConnection, DTEvent.catalogLookup name,
          DTEvent.pragmaTableInfo name]) := by
  constructor
  · intro h
    constructor
    · unfold describe_table
      rw [if_neg (by decide : ¬((!(true : Bool)) = true)), if_neg (by rw [h]; decide)]
    · intro n
      unfold describe_table
      rw [if_neg (by decide : ¬((!(true : Bool)) = true)), if_neg (by rw [h]; decide)]
      simp
  · intro dbE hmem
    cases dbE with
    | false => simp [describe_table] at hmem
    | true =>
      cases h : catalog.contains name with
      | true =>
        unfold describe_table
        rw [if_neg (by decide : ¬((!(true : Bool)) = true)), if_pos h]
      | false =>
        unfold describe_table at hmem
        rw [if_neg (by decide : ¬((!(true : Bool)) = true)),
          if_neg (by rw [h]; decide)] at hmem
        simp at hmem

/-- A one-table PRAGMA table_info source, as the sqlite3 driver would
deliver it for a table with a single INTEGER primary-key column. -/
def sampleTableInfo : String → List Row :=
  fun _ => [tableInfoRowToRow ⟨0, "id", "INTEGER", 1, none, 1⟩]

/-- Witness for C4: `ghost_table` is not in the catalog, the call fails
with TableNotFound, and no PRAGMA command for it is issued. -/
theorem C4_describe_table_existence_guard_witness :
    (["users"] : List String).contains "ghost_table" = false ∧
    (describe_table true ["users"] sampleTableInfo "ghost_table").fst
      = .error .tableNotFound ∧
    DTEvent.pragmaTableInfo "ghost_table" ∉
      (describe_table true ["users"] sampleTableInfo "ghost_table").snd :=
  ⟨by decide,
   ((C4_describe_table_existence_guard ["users"] sampleTableInfo
     "ghost_table").1 (by decide)).1,
   ((C4_describe_table_existence_guard ["users"] sampleTableInfo
     "ghost_table").1 (by decide)).2 "ghost_table"⟩

/-- C5: `health_check` never raises: every outcome of the
connection-or-query path produces a structured record carrying status,
database path and message, with status `error` on any failure (raised
exception or failing test query). -/
theorem C5_health_check_never_raises (dbPath : String)
    (outcome : Except String (Option (List SQLValue))) :
    ((health_check dbPath outcome).status = "healthy" ∨
       (health_check dbPath outcome).status = "error") ∧
    (health_check dbPath outcome).database = dbPath ∧
    (∀ e, outcome = .error e → (health_check dbPath outcome).status = "error") ∧
    (outcome = .ok none → (health_check dbPath outcome).status = "error") := by
  refine ⟨?_, ?_, ?_, ?_⟩
  · cases outcome with
    | error e => exact Or.inr rfl
    | ok r =>
      cases r with
      | none => exact Or.inr rfl
      | some row =>
        cases row with
        | nil => exact Or.inr rfl
        | cons v tl =>
          by_cases h : v = SQLValue.int 1
          · exact Or.inl (by simp [health_check, h])
          · exact Or.inr (by simp [health_check, h])
  · cases outcome with
    | error e => rfl
    | ok r =>
      cases r with
      | none => rfl
      | some row =>
        cases row with
        | nil => rfl
        | cons v tl => by_cases h : v = SQLValue.int 1 <;> simp [health_check, h]
  · intro e he
    subst he
    rfl
  · intro h
    subst h
    rfl

/-- Witness for C5: a failed connection acquisition yields a structured
record with status `error`, not a raised fault. -/
theorem C5_health_check_never_raises_witness :
    health_check "financial_data.db" (.error "unable to open database file") =
      { status := "error", database := "financial_data.db",
        message := "Health check failed: unable to open database file" } ∧
    (health_check "financial_data.db"
      (.error "unable to open database file")).status = "error" :=
  ⟨rfl,
   (C5_health_check_never_raises "financial_data.db"
     (.error "unable to open database file")).2.2.1
     "unable to open database file" rfl⟩

/-- C6 counterexample: a successful `describe_table` on an existing table
returns descriptors of six string fields (`cid` plus the five named ones),
so "exactly 5 string fields each" fails on the code. -/
theorem C6_counterexample_six_fields :
    (describe_table true ["t"] sampleTableInfo "t").fst =
      .ok [[("cid", "0"), ("name", "id"), ("type", "INTEGER"),
            ("notnull", "1"), ("dflt_value", ""), ("pk", "1")]] ∧
    (descriptorOfRow (tableInfoRowToRow ⟨0, "id", "INTEGER", 1, none, 1⟩)).length
      = 6 ∧
    (descriptorOfRow (tableInfoRowToRow ⟨0, "id", "INTEGER", 1, none, 1⟩)).length
      ≠ 5 :=
  ⟨by decide, by decide, by decide⟩

/-- C6 (amended): for every existing table, `describe_table` returns
column descriptors of exactly 6 string fields each — the column index
`cid` plus name, declared type, nullability flag, default value and
primary-key participation — every value normalized to a string, NULL
rendered as the empty string, and an identical key set across all
descriptors. -/
theorem C6_descriptor_six_string_fields (catalog : List String)
    (infos : String → List TableInfoRow) (name : String)
    (hmem : catalog.contains name = true) :
    (describe_table true catalog (fun n => (infos n).map tableInfoRowToRow)
        name).fst =
      .ok (((infos name).map tableInfoRowToRow).map descriptorOfRow) ∧
    (∀ d ∈ ((infos name).map tableInfoRowToRow).map descriptorOfRow,
       d.map Prod.fst = ["cid", "name", "type", "notnull", "dflt_value", "pk"] ∧
       d.length = 6) ∧
    (∀ r : TableInfoRow,
       descriptorOfRow (tableInfoRowToRow r) =
         [("cid", toString r.cid), ("name", r.name), ("type", r.type),
          ("notnull", toString r.notnull),
          ("dflt_value", match r.dflt_value with | none => "" | some s => s),
          ("pk", toString r.pk)]) := by
  refine ⟨by
    unfold describe_table
    rw [if_neg (by decide : ¬((!(true : Bool)) = true)), if_pos hmem], ?_, ?_⟩
  · intro d hd
    simp only [List.map_map, List.mem_map] at hd
    obtain ⟨r, _, hr⟩ := hd
    subst hr
    exact ⟨rfl, rfl⟩
  · intro r
    cases hdv : r.dflt_value <;>
      simp [descriptorOfRow, tableInfoRowToRow, pyStr, hdv]

/-- A one-column PRAGMA table_info description used as witness data. -/
def sampleInfos : String → List TableInfoRow :=
  fun _ => [⟨0, "id", "INTEGER", 1, none, 1⟩]

/-- Witness for C6's amended theorem on a concrete one-column table. -/
theorem C6_descriptor_six_string_fields_witness :
    (["t"] : List String).contains "t" = true ∧
    (describe_table true ["t"] (fun n => (sampleInfos n).map tableInfoRowToRow)
        "t").fst =
      .ok (((sampleInfos "t").map tableInfoRowToRow).map descriptorOfRow) :=
  ⟨by decide,
   (C6_descriptor_six_string_fields ["t"] sampleInfos "t" (by decide)).1⟩

end SQLiteExplorer
